import Mathlib

/-!
Shallow embedding of the EcoLink supply-chain contracts
(`SupplyChainBatch.sol`, `GoodwillToken.sol`, `DonationVerifier.sol`,
`ExpiryKeeper.sol`) in Lean 4.

Modelling conventions:
* Addresses and uint256 values are `Nat`; the zero address is `0`.
  Solidity 0.8 checked arithmetic reverts on overflow/underflow, which is
  modelled by an explicit `panic` error whenever a sum or product could
  reach `2 ^ 256` or a difference could underflow.
* Solidity mappings are association lists read through `mget` with the
  type's default value (`0`, `false`, the all-zero struct), exactly like a
  Solidity mapping; `delete m[k]` is modelled by storing the default.
* A reverting call is `Except.error e`: the caller keeps the pre-state, so
  a revert changes no state by construction.
* `keccak256(abi.encodePacked(...))` digests are modelled injectively: the
  donation commitment hash is the `(batchId, retailer, ngo)` triple itself
  (the encoding of the fixed-size fields after the domain tag is injective),
  and a tax-receipt hash is an opaque constructor applied to the exact
  fields the contract hashes.
* ECDSA recovery: the contracts only ever use `recover`'s output, so a
  signature argument is abstracted to the address that
  `ethSignedHash.recover(signature)` yields for the message at hand.
-/

/-- Maximum value bound for uint256 arithmetic: 2 ^ 256. -/
def UMAX : Nat := 2 ^ 256

/-- Reads key `k` from an association-list map, returning the Solidity
default `d` when the key was never written. -/
def mget {κ α : Type} [DecidableEq κ] (m : List (κ × α)) (d : α) (k : κ) : α :=
  match m with
  | [] => d
  | (k₁, v) :: rest => if k₁ = k then v else mget rest d k

/-- Writes key `k` to an association-list map (newest entry shadows). -/
def mset {κ α : Type} (m : List (κ × α)) (k : κ) (v : α) : List (κ × α) :=
  (k, v) :: m

theorem mget_mset_self {κ α : Type} [DecidableEq κ] (m : List (κ × α)) (d : α) (k : κ) (v : α) :
    mget (mset m k v) d k = v := by
  simp [mget, mset]

theorem mget_mset_ne {κ α : Type} [DecidableEq κ] (m : List (κ × α)) (d : α)
    (k₁ k : κ) (v : α) (h : k₁ ≠ k) :
    mget (mset m k₁ v) d k = mget m d k := by
  simp [mget, mset, h]

theorem mget_eq_default_of_no_key {κ α : Type} [DecidableEq κ] (m : List (κ × α)) (d : α) (k : κ)
    (h : ∀ kv ∈ m, kv.1 ≠ k) : mget m d k = d := by
  induction m with
  | nil => rfl
  | cons kv rest ih =>
    have hk : kv.1 ≠ k := h kv (List.mem_cons_self kv rest)
    simp only [mget]
    rw [if_neg hk]
    exact ih fun kv₂ hmem => h kv₂ (List.mem_cons_of_mem kv hmem)

/-! Status codes of `SupplyChainBatch.Status` (enum values). -/

/-- Status code `MANUFACTURED` (0). -/
def MANUFACTURED : Nat := 0

/-- Status code `IN_RETAIL` (1). -/
def IN_RETAIL : Nat := 1

/-- Status code `NEAR_EXPIRY` (2). -/
def NEAR_EXPIRY : Nat := 2

/-- Status code `READY_FOR_DONATION` (3). -/
def READY_FOR_DONATION : Nat := 3

/-- Revert causes, one per `require` string / builtin panic in the sources. -/
inductive Err : Type where
  | expiryNotFuture
  | quantityZero
  | notAvailable
  | notOwned
  | notBatchOwner
  | invalidStatusForDonation
  | notAuthorized
  | notInRetail
  | notNearExpiryYet
  | invalidReceiver
  | invalidSender
  | missingApproval
  | insufficientBalance1155
  | notRegisteredNGO
  | noPendingDonation
  | invalidSignature
  | wrongBatchStatus
  | notAuthorizedMinter
  | insufficientBalance
  | panic
  deriving DecidableEq, Repr

/-- On-chain batch record (`SupplyChainBatch.Batch`), fields in source order. -/
structure Batch : Type where
  expiry : Nat
  quantity : Nat
  manufacturer : Nat
  currentOwner : Nat
  status : Nat
  gs1Hash : Nat
  weightKg : Nat
  deriving DecidableEq, Repr

/-- Default (all-zero) batch record returned by an unwritten mapping slot. -/
def batch0 : Batch :=
  { expiry := 0, quantity := 0, manufacturer := 0, currentOwner := 0
    status := 0, gs1Hash := 0, weightKg := 0 }

/-- State of the `SupplyChainBatch` contract, including the inherited
ERC-1155 balances and operator approvals. -/
structure BatchReg : Type where
  batches : List (Nat × Batch)
  nextBatchId : Nat
  authorizedOracles : List (Nat × Bool)
  regOwner : Nat
  bal1155 : List ((Nat × Nat) × Nat)
  operatorApprovals : List ((Nat × Nat) × Bool)
  deriving DecidableEq, Repr

/-- Observed status of batch `id` in registry `r`. -/
def statusOf (r : BatchReg) (id : Nat) : Nat :=
  (mget r.batches batch0 id).status

/-- Embeds `SupplyChainBatch.registerBatch`: requires a future expiry and a
positive quantity, stores a `MANUFACTURED` batch owned by the caller and
mints one ERC-1155 token for it (OpenZeppelin `_mint` reverts on the zero
address). -/
def registerBatch (r : BatchReg) (caller now expiry quantity gs1Hash weightKg : Nat) :
    Except Err BatchReg :=
  if expiry ≤ now then .error .expiryNotFuture
  else if quantity = 0 then .error .quantityZero
  else if caller = 0 then .error .invalidReceiver
  else
    let batchId := r.nextBatchId
    .ok { r with
      batches := mset r.batches batchId
        { expiry := expiry, quantity := quantity, manufacturer := caller
          currentOwner := caller, status := MANUFACTURED
          gs1Hash := gs1Hash, weightKg := weightKg }
      nextBatchId := r.nextBatchId + 1
      bal1155 := mset r.bal1155 (caller, batchId)
        (mget r.bal1155 0 (caller, batchId) + 1) }

/-- Embeds `SupplyChainBatch.claimBatch`: requires `MANUFACTURED` status and
a token-holding current owner, then transfers ownership and the ERC-1155
token to the caller and sets `IN_RETAIL`. -/
def claimBatch (r : BatchReg) (caller batchId : Nat) : Except Err BatchReg :=
  let b := mget r.batches batch0 batchId
  if b.status ≠ MANUFACTURED then .error .notAvailable
  else if mget r.bal1155 0 (b.currentOwner, batchId) = 0 then .error .notOwned
  else if caller = 0 then .error .invalidReceiver
  else
    let prev := b.currentOwner
    let bal₁ := mset r.bal1155 (prev, batchId) (mget r.bal1155 0 (prev, batchId) - 1)
    let bal₂ := mset bal₁ (caller, batchId) (mget bal₁ 0 (caller, batchId) + 1)
    .ok { r with
      batches := mset r.batches batchId
        { b with currentOwner := caller, status := IN_RETAIL }
      bal1155 := bal₂ }

/-- Embeds `SupplyChainBatch.markForDonation`: owner-only, requires status
`IN_RETAIL` or `NEAR_EXPIRY`, sets `READY_FOR_DONATION`. -/
def markForDonation (r : BatchReg) (caller batchId : Nat) : Except Err BatchReg :=
  let b := mget r.batches batch0 batchId
  if b.currentOwner ≠ caller then .error .notBatchOwner
  else if b.status ≠ IN_RETAIL ∧ b.status ≠ NEAR_EXPIRY then .error .invalidStatusForDonation
  else
    .ok { r with
      batches := mset r.batches batchId { b with status := READY_FOR_DONATION } }

/-- Embeds `SupplyChainBatch.flagNearExpiry`: requires an authorized oracle
or the contract owner and status `IN_RETAIL`, then requires
`block.timestamp >= expiry - 3 days` (the checked subtraction panics when
`expiry < 3 days`; note the source imposes no upper bound on the current
time) and sets `NEAR_EXPIRY`. -/
def flagNearExpiry (r : BatchReg) (caller batchId now : Nat) : Except Err BatchReg :=
  if ¬(mget r.authorizedOracles false caller = true ∨ caller = r.regOwner) then
    .error .notAuthorized
  else
    let b := mget r.batches batch0 batchId
    if b.status ≠ IN_RETAIL then .error .notInRetail
    else if b.expiry < 259200 then .error .panic
    else if now < b.expiry - 259200 then .error .notNearExpiryYet
    else
      .ok { r with batches := mset r.batches batchId { b with status := NEAR_EXPIRY } }

/-- Embeds `SupplyChainBatch.setOracle` (owner-gated oracle toggle). -/
def setOracle (r : BatchReg) (caller oracle : Nat) (authorized : Bool) : Except Err BatchReg :=
  if caller ≠ r.regOwner then .error .notAuthorized
  else .ok { r with authorizedOracles := mset r.authorizedOracles oracle authorized }

/-- Embeds the inherited public ERC-1155 `safeTransferFrom` on a batch
token: caller must be the holder or an approved operator; the transfer
itself checks nonzero addresses and a sufficient sender balance. The batch
metadata (`batches`) is not touched. -/
def safeTransferFrom1155 (r : BatchReg) (caller fromAcc toAcc id amount : Nat) :
    Except Err BatchReg :=
  if fromAcc ≠ caller ∧ mget r.operatorApprovals false (fromAcc, caller) ≠ true then
    .error .missingApproval
  else if toAcc = 0 then .error .invalidReceiver
  else if fromAcc = 0 then .error .invalidSender
  else if mget r.bal1155 0 (fromAcc, id) < amount then .error .insufficientBalance1155
  else
    let bal₁ := mset r.bal1155 (fromAcc, id) (mget r.bal1155 0 (fromAcc, id) - amount)
    let bal₂ := mset bal₁ (toAcc, id) (mget bal₁ 0 (toAcc, id) + amount)
    .ok { r with bal1155 := bal₂ }

/-- Embeds the inherited ERC-1155 `setApprovalForAll`. -/
def setApprovalForAll1155 (r : BatchReg) (caller operator : Nat) (approved : Bool) :
    Except Err BatchReg :=
  if operator = 0 then .error .invalidSender
  else .ok { r with operatorApprovals := mset r.operatorApprovals (caller, operator) approved }

/-- One externally submitted state-changing call on the `SupplyChainBatch`
contract, with its environment (caller, timestamp) baked in. -/
inductive RegOp : Type where
  | register (caller now expiry quantity gs1Hash weightKg : Nat)
  | claim (caller batchId : Nat)
  | mark (caller batchId : Nat)
  | flag (caller batchId now : Nat)
  | oracle (caller addr : Nat) (authorized : Bool)
  | transfer (caller fromAcc toAcc id amount : Nat)
  | approve (caller operator : Nat) (approved : Bool)
  deriving Repr

/-- Dispatches one `RegOp` to the corresponding contract function. -/
def regStep (r : BatchReg) : RegOp → Except Err BatchReg
  | .register caller now expiry quantity gs1Hash weightKg =>
      registerBatch r caller now expiry quantity gs1Hash weightKg
  | .claim caller batchId => claimBatch r caller batchId
  | .mark caller batchId => markForDonation r caller batchId
  | .flag caller batchId now => flagNearExpiry r caller batchId now
  | .oracle caller addr authorized => setOracle r caller addr authorized
  | .transfer caller fromAcc toAcc id amount => safeTransferFrom1155 r caller fromAcc toAcc id amount
  | .approve caller operator approved => setApprovalForAll1155 r caller operator approved

/-- Runs a sequence of calls; a reverting call leaves the state unchanged. -/
def runReg (r : BatchReg) (ops : List RegOp) : BatchReg :=
  ops.foldl (fun r₁ op => match regStep r₁ op with | .ok r₂ => r₂ | .error _ => r₁) r

/-- Well-formedness that every reachable registry state enjoys: every
stored batch id and every id with a nonzero ERC-1155 balance lies below
the `nextBatchId` high-water mark. -/
def wfReg (r : BatchReg) : Bool :=
  r.batches.all (fun kv => kv.1 < r.nextBatchId) &&
    r.bal1155.all (fun kv => kv.2 = 0 || kv.1.2 < r.nextBatchId)

/-! GoodwillToken (`GoodwillToken.sol`): ERC-20 reward ledger with burn-for-tax
receipts. Staking is not needed by any claim and is omitted. -/

/-- Opaque injective model of the keccak256 tax-receipt digest. The source
hashes exactly `(msg.sender, amount, block.timestamp, block.number,
taxReceipts[msg.sender].length)`, so the digest is this constructor applied
to those five values. -/
structure RHash : Type where
  burner : Nat
  amount : Nat
  timestamp : Nat
  blockNumber : Nat
  priorCount : Nat
  deriving DecidableEq, Repr

/-- One stored tax receipt (`GoodwillToken.TaxReceipt`). -/
structure TaxReceipt : Type where
  burner : Nat
  amount : Nat
  timestamp : Nat
  receiptHash : RHash
  deriving DecidableEq, Repr

/-- State of the `GoodwillToken` contract (ERC-20 balances and total supply
plus the contract's own storage). -/
structure GWT : Type where
  balances : List (Nat × Nat)
  totalSupply : Nat
  taxReceipts : List (Nat × List TaxReceipt)
  authorizedMinters : List (Nat × Bool)
  gwtOwner : Nat
  deriving DecidableEq, Repr

/-- OpenZeppelin ERC-20 `_mint`: rejects the zero address, reverts on
total-supply overflow (checked add), then credits the balance (the balance
add is unchecked in the source, bounded by the total supply). -/
def erc20Mint (g : GWT) (toAcc amount : Nat) : Except Err GWT :=
  if toAcc = 0 then .error .invalidReceiver
  else if UMAX ≤ g.totalSupply + amount then .error .panic
  else
    .ok { g with
      totalSupply := g.totalSupply + amount
      balances := mset g.balances toAcc (mget g.balances 0 toAcc + amount) }

/-- Embeds `GoodwillToken.mintForDonation`: minter-gated `_mint`. -/
def mintForDonation (g : GWT) (caller toAcc amount : Nat) : Except Err GWT :=
  if mget g.authorizedMinters false caller ≠ true then .error .notAuthorizedMinter
  else erc20Mint g toAcc amount

/-- Embeds `GoodwillToken.mintNGOReferral`: minter-gated `_mint`. -/
def mintNGOReferral (g : GWT) (caller toAcc amount : Nat) : Except Err GWT :=
  if mget g.authorizedMinters false caller ≠ true then .error .notAuthorizedMinter
  else erc20Mint g toAcc amount

/-- Embeds `GoodwillToken.burnForTax`: requires a sufficient balance, hashes
`(msg.sender, amount, block.timestamp, block.number, prior receipt count)`,
appends the receipt and burns the amount (OpenZeppelin `_burn` rejects the
zero address; its total-supply decrement is unchecked in the source). -/
def burnForTax (g : GWT) (caller amount now blockNumber : Nat) : Except Err GWT :=
  if mget g.balances 0 caller < amount then .error .insufficientBalance
  else
    let prior := mget g.taxReceipts [] caller
    let h : RHash :=
      { burner := caller, amount := amount, timestamp := now
        blockNumber := blockNumber, priorCount := prior.length }
    if caller = 0 then .error .invalidSender
    else
      .ok { g with
        taxReceipts := mset g.taxReceipts caller
          (prior ++ [{ burner := caller, amount := amount, timestamp := now
                       receiptHash := h }])
        balances := mset g.balances caller (mget g.balances 0 caller - amount)
        totalSupply := g.totalSupply - amount }

/-! DonationVerifier (`DonationVerifier.sol`). -/

/-- One verified donation record (`DonationVerifier.Donation`). -/
structure Donation : Type where
  batchId : Nat
  retailer : Nat
  ngo : Nat
  quantity : Nat
  weightKg : Nat
  carbonCredits : Nat
  goodwillTokens : Nat
  verifiedAt : Nat
  donationHash : Nat × Nat × Nat
  deriving DecidableEq, Repr

/-- Default (all-zero) donation record of an unwritten mapping slot. -/
def donation0 : Donation :=
  { batchId := 0, retailer := 0, ngo := 0, quantity := 0, weightKg := 0
    carbonCredits := 0, goodwillTokens := 0, verifiedAt := 0
    donationHash := (0, 0, 0) }

/-- State of the `DonationVerifier` contract. -/
structure DV : Type where
  donations : List (Nat × Donation)
  donationCount : Nat
  pendingDonations : List ((Nat × Nat × Nat) × Nat)
  registeredNGOs : List (Nat × Bool)
  parentCompanyTreasury : Nat
  quarterCO2Saved : List (Nat × Nat)
  quarterItemsDonated : List (Nat × Nat)
  dvOwner : Nat
  deriving DecidableEq, Repr

/-- State of the `ExpiryKeeper` contract. -/
structure Keeper : Type where
  checkBatchSize : Nat
  lastCheckedBatchId : Nat
  keeperOwner : Nat
  deriving DecidableEq, Repr

/-- The deployed system: the four contracts plus the (immutable) addresses
under which the verifier and the keeper contracts themselves appear as
`msg.sender` when they call into the other contracts. -/
structure Sys : Type where
  reg : BatchReg
  gwt : GWT
  dv : DV
  keeper : Keeper
  verifierAddr : Nat
  keeperAddr : Nat
  deriving DecidableEq, Repr

/-- Embeds `DonationVerifier.getDonationHash`: the keccak digest of the
domain tag and `(batchId, retailer, ngo)`, modelled injectively as the
triple itself. -/
def getDonationHash (batchId retailer ngo : Nat) : Nat × Nat × Nat :=
  (batchId, retailer, ngo)

/-- Embeds `DonationVerifier._getCurrentQuarter`: the year is the constant
2026 and the month is derived from `block.timestamp / 30 days` modulo 12. -/
def getCurrentQuarter (now : Nat) : Nat :=
  let month := (now / 2592000) % 12 + 1
  let quarter := (month - 1) / 3 + 1
  2026 * 10 + quarter

/-- Embeds `DonationVerifier.initiateDonation` (phase 1): requires a
registered NGO, caller ownership of a `READY_FOR_DONATION` batch and a
signature recovering to the caller, then stores the pending entry under
the commitment hash. `sigRecovered` is the address that
`recover(ethSignedHash, signature)` yields. -/
def initiateDonation (s : Sys) (caller batchId ngo sigRecovered : Nat) : Except Err Sys :=
  if mget s.dv.registeredNGOs false ngo ≠ true then .error .notRegisteredNGO
  else
    let b := mget s.reg.batches batch0 batchId
    if b.currentOwner ≠ caller then .error .notBatchOwner
    else if b.status ≠ 3 then .error .wrongBatchStatus
    else if sigRecovered ≠ caller then .error .invalidSignature
    else
      .ok { s with dv := { s.dv with
        pendingDonations :=
          mset s.dv.pendingDonations (getDonationHash batchId caller ngo) caller } }

/-- Embeds `DonationVerifier.confirmDonation` (phase 2): requires the
calling NGO to be registered, a pending entry matching the retailer, a
signature recovering to the caller and the batch still `READY_FOR_DONATION`
(status 3); computes `carbonCredits = weightKg * 25 / 10` and
`ngoTokens = quantity * 10 / 100` in integer arithmetic, mints via the
token contract (the verifier address is the minter), accumulates the
current quarter's aggregates, appends the donation record and deletes the
pending entry. -/
def confirmDonation (s : Sys) (caller batchId retailer sigRecovered now : Nat) :
    Except Err Sys :=
  if mget s.dv.registeredNGOs false caller ≠ true then .error .notRegisteredNGO
  else
    let donationHash := getDonationHash batchId retailer caller
    if mget s.dv.pendingDonations 0 donationHash ≠ retailer then .error .noPendingDonation
    else if sigRecovered ≠ caller then .error .invalidSignature
    else
      let b := mget s.reg.batches batch0 batchId
      if b.status ≠ 3 then .error .wrongBatchStatus
      else if UMAX ≤ b.weightKg * 25 then .error .panic
      else
        let carbonCredits := b.weightKg * 25 / 10
        let retailerTokens := b.quantity
        if UMAX ≤ b.quantity * 10 then .error .panic
        else
          let ngoTokens := b.quantity * 10 / 100
          match mintForDonation s.gwt s.verifierAddr retailer retailerTokens with
          | .error e => .error e
          | .ok g₁ =>
            match mintNGOReferral g₁ s.verifierAddr caller ngoTokens with
            | .error e => .error e
            | .ok g₂ =>
              let currentQuarter := getCurrentQuarter now
              if UMAX ≤ mget s.dv.quarterCO2Saved 0 currentQuarter + carbonCredits then
                .error .panic
              else if UMAX ≤ mget s.dv.quarterItemsDonated 0 currentQuarter + b.quantity then
                .error .panic
              else if UMAX ≤ s.dv.donationCount + 1 then .error .panic
              else
                .ok { s with
                  gwt := g₂
                  dv := { s.dv with
                    quarterCO2Saved := mset s.dv.quarterCO2Saved currentQuarter
                      (mget s.dv.quarterCO2Saved 0 currentQuarter + carbonCredits)
                    quarterItemsDonated := mset s.dv.quarterItemsDonated currentQuarter
                      (mget s.dv.quarterItemsDonated 0 currentQuarter + b.quantity)
                    donationCount := s.dv.donationCount + 1
                    donations := mset s.dv.donations (s.dv.donationCount + 1)
                      { batchId := batchId, retailer := retailer, ngo := caller
                        quantity := b.quantity, weightKg := b.weightKg
                        carbonCredits := carbonCredits
                        goodwillTokens := retailerTokens, verifiedAt := now
                        donationHash := donationHash }
                    pendingDonations := mset s.dv.pendingDonations donationHash 0 } }

/-! ExpiryKeeper (`ExpiryKeeper.sol`). -/

/-- Embeds the scan loop of `ExpiryKeeper.checkUpkeep`:
`for (i = startId; i < endId && flagCount < checkBatchSize; i++)`, reading
each batch (the public mapping getter never fails, so the try/catch is
inert) and collecting ids with status `IN_RETAIL` whose expiry lies within
the next three days. Returns the list of inspected ids and the list of
candidate ids; `fuel` is `endId - i`. The checked subtraction
`expiry - 3 days` panics when a status-1 batch has `expiry < 3 days`
(short-circuit: it is not evaluated otherwise). -/
def scanLoopAux (r : BatchReg) (now size : Nat) :
    Nat → Nat → Nat → Except Err (List Nat × List Nat)
  | 0, _, _ => .ok ([], [])
  | fuel + 1, i, flagCount =>
    if size ≤ flagCount then .ok ([], [])
    else
      let b := mget r.batches batch0 i
      if b.status = 1 then
        if b.expiry < 259200 then .error .panic
        else if b.expiry - 259200 ≤ now ∧ now < b.expiry then
          match scanLoopAux r now size fuel (i + 1) (flagCount + 1) with
          | .error e => .error e
          | .ok (inspected, cands) => .ok (i :: inspected, i :: cands)
        else
          match scanLoopAux r now size fuel (i + 1) flagCount with
          | .error e => .error e
          | .ok (inspected, cands) => .ok (i :: inspected, cands)
      else
        match scanLoopAux r now size fuel (i + 1) flagCount with
        | .error e => .error e
        | .ok (inspected, cands) => .ok (i :: inspected, cands)

/-- Embeds `ExpiryKeeper.checkUpkeep` (a view): scans the page
`[lastCheckedBatchId + 1, min(lastCheckedBatchId + 1 + checkBatchSize, nextBatchId))`
and returns the inspected ids, the `upkeepNeeded` flag and, when upkeep is
needed, the decoded `performData` payload `(candidate ids, endId)`. -/
def checkUpkeep (s : Sys) (now : Nat) :
    Except Err (List Nat × Bool × Option (List Nat × Nat)) :=
  let size := s.keeper.checkBatchSize
  let totalBatches := s.reg.nextBatchId
  if UMAX ≤ s.keeper.lastCheckedBatchId + 1 then .error .panic
  else
    let startId := s.keeper.lastCheckedBatchId + 1
    if UMAX ≤ startId + size then .error .panic
    else
      let endId := if totalBatches < startId + size then totalBatches else startId + size
      match scanLoopAux s.reg now size (endId - startId) startId 0 with
      | .error e => .error e
      | .ok (inspected, cands) =>
        if cands.isEmpty then .ok (inspected, false, none)
        else .ok (inspected, true, some (cands, endId))

/-- Embeds the flagging loop of `ExpiryKeeper.performUpkeep`: each
`flagNearExpiry` call is wrapped in try/catch, so an individual failure is
swallowed; after a successful flag the batch is re-read and — since its
status is now 2 — `(expiry - block.timestamp) / 1 days` is computed for the
event, whose checked subtraction panics (uncaught) when the flagged batch
is already past expiry. The keeper contract itself is the caller of
`flagNearExpiry`. -/
def performLoop (r : BatchReg) (keeperAddr now : Nat) : List Nat → Except Err BatchReg
  | [] => .ok r
  | batchId :: rest =>
    match flagNearExpiry r keeperAddr batchId now with
    | .error _ => performLoop r keeperAddr now rest
    | .ok r₁ =>
      let b := mget r₁.batches batch0 batchId
      if b.status = 2 then
        if b.expiry < now then .error .panic
        else performLoop r₁ keeperAddr now rest
      else performLoop r₁ keeperAddr now rest

/-- Embeds `ExpiryKeeper.performUpkeep` with an already-decoded
`performData` payload `(batchIds, lastChecked)`. The source performs no
caller check whatsoever (`msg.sender` is never read): it flags the listed
ids tolerantly, then unconditionally persists `lastChecked` as the cursor,
resetting it to 0 once it reaches `nextBatchId - 1` (that checked
subtraction panics when `nextBatchId = 0`, which no reachable state has). -/
def performUpkeep (s : Sys) (caller : Nat) (data : List Nat × Nat) (now : Nat) :
    Except Err Sys :=
  match performLoop s.reg s.keeperAddr now data.1 with
  | .error e => .error e
  | .ok r₁ =>
    if r₁.nextBatchId = 0 then .error .panic
    else
      let cursor := if r₁.nextBatchId - 1 ≤ data.2 then 0 else data.2
      .ok { s with
        reg := r₁
        keeper := { s.keeper with lastCheckedBatchId := cursor } }

/-- One scan/apply cycle of the automation driver: `checkUpkeep` from the
persisted cursor followed — when upkeep is needed — by `performUpkeep` on
the returned `performData`. Returns the new state and the ids the scan
inspected. -/
def keeperCycle (s : Sys) (now : Nat) : Sys × List Nat :=
  match checkUpkeep s now with
  | .error _ => (s, [])
  | .ok (inspected, _, none) => (s, inspected)
  | .ok (inspected, _, some data) =>
    match performUpkeep s 0 data now with
    | .error _ => (s, inspected)
    | .ok s₁ => (s₁, inspected)

instance {e a : Type} [DecidableEq e] [DecidableEq a] : DecidableEq (Except e a) := fun x y =>
  match x, y with
  | .ok v, .ok w => if h : v = w then .isTrue (by rw [h]) else .isFalse (by simp [h])
  | .error v, .error w => if h : v = w then .isTrue (by rw [h]) else .isFalse (by simp [h])
  | .ok _, .error _ => .isFalse (by simp)
  | .error _, .ok _ => .isFalse (by simp)

/-! Concrete scenario states used by witnesses and counterexamples. -/

/-- Empty token-ledger state whose authorized minter is address 9 (the
verifier contract). -/
def gwt0 : GWT :=
  { balances := [], totalSupply := 0, taxReceipts := []
    authorizedMinters := [(9, true)], gwtOwner := 1 }

/-- Verifier storage with NGO 2 registered and a pending commitment for
batch 1 initiated by retailer 3. -/
def dv0 : DV :=
  { donations := [], donationCount := 0
    pendingDonations := [((1, 3, 2), 3)]
    registeredNGOs := [(2, true)], parentCompanyTreasury := 0
    quarterCO2Saved := [], quarterItemsDonated := [], dvOwner := 1 }

/-- Scenario-A batch: quantity 50, weight 25 kg, ready for donation,
owned by retailer 3. -/
def batchA : Batch :=
  { expiry := 864000, quantity := 50, manufacturer := 1, currentOwner := 3
    status := 3, gs1Hash := 7, weightKg := 25 }

/-- Registry holding only the Scenario-A batch. -/
def regA : BatchReg :=
  { batches := [(1, batchA)], nextBatchId := 2, authorizedOracles := [(4, true)]
    regOwner := 1, bal1155 := [((3, 1), 1)], operatorApprovals := [] }

/-- Keeper storage with the default page size of 50 and cursor 0. -/
def keeper0 : Keeper :=
  { checkBatchSize := 50, lastCheckedBatchId := 0, keeperOwner := 1 }

/-- Scenario-A system state: batch 1 pending donation from retailer 3 to
NGO 2, verifier deployed at address 9, keeper at address 8. -/
def sysA : Sys :=
  { reg := regA, gwt := gwt0, dv := dv0, keeper := keeper0
    verifierAddr := 9, keeperAddr := 8 }

/-- State after NGO 2 confirms the Scenario-A donation at time 1000. -/
def sysA' : Sys := (confirmDonation sysA 2 1 3 2 1000).toOption.getD sysA

/-- Variant scenario batch: quantity 7, weight 4 kg, ready for donation. -/
def batchB : Batch :=
  { expiry := 864000, quantity := 7, manufacturer := 1, currentOwner := 3
    status := 3, gs1Hash := 7, weightKg := 4 }

/-- System state with the quantity-7 batch pending donation. -/
def sysB : Sys :=
  { sysA with reg := { regA with batches := [(1, batchB)] } }

/-- State after NGO 2 confirms the quantity-7 donation at time 1000. -/
def sysB' : Sys := (confirmDonation sysB 2 1 3 2 1000).toOption.getD sysB

/-- Scenario-C batch (claim C6): in retail, expiring at time 864000. -/
def batchC : Batch :=
  { expiry := 864000, quantity := 1, manufacturer := 1, currentOwner := 2
    status := 1, gs1Hash := 0, weightKg := 1 }

/-- Scenario-C registry: 120 registered batches (ids 1..120), all in
retail and one day from expiry at the scenario time. -/
def regC : BatchReg :=
  { batches := (List.range 120).map (fun i => (i + 1, batchC))
    nextBatchId := 121, authorizedOracles := [(8, true)], regOwner := 1
    bal1155 := (List.range 120).map (fun i => ((2, i + 1), 1))
    operatorApprovals := [] }

/-- Scenario-C time: one day before every batch's expiry, inside the
near-expiry window. -/
def nowC : Nat := 777600

/-- Scenario-C system: 120 batches, page size 50, cursor 0, keeper
contract (address 8) authorized as oracle. -/
def sysC : Sys :=
  { reg := regC, gwt := gwt0, dv := dv0, keeper := keeper0
    verifierAddr := 9, keeperAddr := 8 }

/-- First scan/apply cycle of Scenario C. -/
def cycC1 : Sys × List Nat := keeperCycle sysC nowC

/-- Second scan/apply cycle of Scenario C. -/
def cycC2 : Sys × List Nat := keeperCycle cycC1.1 nowC

/-- Third scan/apply cycle of Scenario C. -/
def cycC3 : Sys × List Nat := keeperCycle cycC2.1 nowC

/-- All batch ids inspected across the three Scenario-C cycles. -/
def visitedC : List Nat := cycC1.2 ++ cycC2.2 ++ cycC3.2

/-! Inversion lemmas: what a successful call implies about its inputs and
what state it produced. -/

theorem erc20Mint_ok_elim (g g' : GWT) (toAcc amount : Nat)
    (h : erc20Mint g toAcc amount = .ok g') :
    toAcc ≠ 0
    ∧ g' = { g with
        totalSupply := g.totalSupply + amount
        balances := mset g.balances toAcc (mget g.balances 0 toAcc + amount) } := by
  unfold erc20Mint at h
  split at h
  next hz => exact Except.noConfusion h
  next hz =>
    split at h
    next => exact Except.noConfusion h
    next =>
      injection h with h
      exact ⟨hz, h.symm⟩

theorem mintForDonation_ok_elim (g g' : GWT) (caller toAcc amount : Nat)
    (h : mintForDonation g caller toAcc amount = .ok g') :
    toAcc ≠ 0
    ∧ g' = { g with
        totalSupply := g.totalSupply + amount
        balances := mset g.balances toAcc (mget g.balances 0 toAcc + amount) } := by
  unfold mintForDonation at h
  split at h
  next => exact Except.noConfusion h
  next => exact erc20Mint_ok_elim g g' toAcc amount h

theorem mintNGOReferral_ok_elim (g g' : GWT) (caller toAcc amount : Nat)
    (h : mintNGOReferral g caller toAcc amount = .ok g') :
    toAcc ≠ 0
    ∧ g' = { g with
        totalSupply := g.totalSupply + amount
        balances := mset g.balances toAcc (mget g.balances 0 toAcc + amount) } := by
  unfold mintNGOReferral at h
  split at h
  next => exact Except.noConfusion h
  next => exact erc20Mint_ok_elim g g' toAcc amount h

theorem confirmDonation_ok_elim (s s' : Sys) (caller batchId retailer sig now : Nat)
    (h : confirmDonation s caller batchId retailer sig now = .ok s') :
    ∃ g₁ g₂ : GWT,
      mget s.dv.registeredNGOs false caller = true
      ∧ mget s.dv.pendingDonations 0 (batchId, retailer, caller) = retailer
      ∧ sig = caller
      ∧ (mget s.reg.batches batch0 batchId).status = 3
      ∧ mintForDonation s.gwt s.verifierAddr retailer
          (mget s.reg.batches batch0 batchId).quantity = .ok g₁
      ∧ mintNGOReferral g₁ s.verifierAddr caller
          ((mget s.reg.batches batch0 batchId).quantity * 10 / 100) = .ok g₂
      ∧ s' = { s with
          gwt := g₂
          dv := { s.dv with
            quarterCO2Saved := mset s.dv.quarterCO2Saved (getCurrentQuarter now)
              (mget s.dv.quarterCO2Saved 0 (getCurrentQuarter now)
                + (mget s.reg.batches batch0 batchId).weightKg * 25 / 10)
            quarterItemsDonated := mset s.dv.quarterItemsDonated (getCurrentQuarter now)
              (mget s.dv.quarterItemsDonated 0 (getCurrentQuarter now)
                + (mget s.reg.batches batch0 batchId).quantity)
            donationCount := s.dv.donationCount + 1
            donations := mset s.dv.donations (s.dv.donationCount + 1)
              { batchId := batchId, retailer := retailer, ngo := caller
                quantity := (mget s.reg.batches batch0 batchId).quantity
                weightKg := (mget s.reg.batches batch0 batchId).weightKg
                carbonCredits := (mget s.reg.batches batch0 batchId).weightKg * 25 / 10
                goodwillTokens := (mget s.reg.batches batch0 batchId).quantity
                verifiedAt := now
                donationHash := (batchId, retailer, caller) }
            pendingDonations := mset s.dv.pendingDonations (batchId, retailer, caller) 0 } } := by
  simp only [confirmDonation, getDonationHash] at h
  split at h
  next => exact Except.noConfusion h
  next hreg =>
    split at h
    next => exact Except.noConfusion h
    next hpend =>
      split at h
      next => exact Except.noConfusion h
      next hsig =>
        split at h
        next => exact Except.noConfusion h
        next hstatus =>
          split at h
          next => exact Except.noConfusion h
          next =>
            split at h
            next => exact Except.noConfusion h
            next =>
              split at h
              next e he => exact Except.noConfusion h
              next g₁ hg₁ =>
                split at h
                next e he => exact Except.noConfusion h
                next g₂ hg₂ =>
                  split at h
                  next => exact Except.noConfusion h
                  next =>
                    split at h
                    next => exact Except.noConfusion h
                    next =>
                      split at h
                      next => exact Except.noConfusion h
                      next =>
                        injection h with h
                        refine ⟨g₁, g₂, ?_, ?_, ?_, ?_, hg₁, hg₂, h.symm⟩
                        · exact of_not_not hreg
                        · exact of_not_not hpend
                        · exact of_not_not hsig
                        · exact of_not_not hstatus

/-- C1 — Single-use commitment. The pending-donation store is keyed by the
commitment hash of the `(batchId, retailer, ngo)` triple, so it holds at
most one entry per triple by construction. Every successful
`confirmDonation` overwrites the entry it consumed with the zero address
(the Solidity `delete`), so an immediate replay of the same
`(initiate, confirm)` pair — with any signature and at any time — fails
with the ReplayError revert "No pending donation"; a revert leaves the
state unchanged by the transaction semantics of the model. -/
theorem confirmDonation_replay_fails (s s' : Sys) (caller batchId retailer sig now sig₂ now₂ : Nat)
    (h : confirmDonation s caller batchId retailer sig now = .ok s') :
    mget s'.dv.pendingDonations 0 (getDonationHash batchId retailer caller) = 0
    ∧ confirmDonation s' caller batchId retailer sig₂ now₂ = .error .noPendingDonation := by
  obtain ⟨g₁, g₂, hreg, hpend, hsig, hstatus, hm₁, hm₂, hs'⟩ :=
    confirmDonation_ok_elim s s' caller batchId retailer sig now h
  have hret0 : retailer ≠ 0 := (mintForDonation_ok_elim _ _ _ _ _ hm₁).1
  have hret0' : (0 : Nat) ≠ retailer := fun hc => hret0 hc.symm
  subst hs'
  refine ⟨mget_mset_self _ _ _ _, ?_⟩
  simp only [confirmDonation, getDonationHash, mget_mset_self, hreg]
  simp [hret0']

/-- C1 witness: in the Scenario-A state, NGO 2's confirmation of the
pending donation from retailer 3 succeeds; the consumed entry is zeroed
and the identical re-run reverts with "No pending donation". -/
theorem confirmDonation_replay_fails_witness :
    confirmDonation sysA 2 1 3 2 1000 = .ok sysA'
    ∧ mget sysA'.dv.pendingDonations 0 (getDonationHash 1 3 2) = 0
    ∧ confirmDonation sysA' 2 1 3 2 1000 = .error .noPendingDonation := by
  refine ⟨by decide, ?_, ?_⟩
  · exact (confirmDonation_replay_fails sysA sysA' 2 1 3 2 1000 2 1000 (by decide)).1
  · exact (confirmDonation_replay_fails sysA sysA' 2 1 3 2 1000 2 1000 (by decide)).2

/-- C2 — Reward-unit arithmetic. A successful `confirmDonation` on a batch
of quantity `q` credits the retailer's token balance with exactly `q`
reward units and the confirming NGO's balance with exactly
`floor(q * 10 / 100)` referral units (stated for distinct retailer and
NGO accounts, which is the only way the two mints hit different
balances). -/
theorem confirmDonation_reward_units (s s' : Sys) (caller batchId retailer sig now : Nat)
    (h : confirmDonation s caller batchId retailer sig now = .ok s')
    (hne : retailer ≠ caller) :
    mget s'.gwt.balances 0 retailer
      = mget s.gwt.balances 0 retailer + (mget s.reg.batches batch0 batchId).quantity
    ∧ mget s'.gwt.balances 0 caller
      = mget s.gwt.balances 0 caller
        + (mget s.reg.batches batch0 batchId).quantity * 10 / 100 := by
  obtain ⟨g₁, g₂, hreg, hpend, hsig, hstatus, hm₁, hm₂, hs'⟩ :=
    confirmDonation_ok_elim s s' caller batchId retailer sig now h
  obtain ⟨hr0, hg₁⟩ := mintForDonation_ok_elim _ _ _ _ _ hm₁
  obtain ⟨hc0, hg₂⟩ := mintNGOReferral_ok_elim _ _ _ _ _ hm₂
  subst hs'
  subst hg₂
  subst hg₁
  constructor
  · show mget (mset _ caller _) 0 retailer = _
    rw [mget_mset_ne _ _ caller retailer _ fun hc => hne hc.symm, mget_mset_self]
  · show mget (mset _ caller _) 0 caller = _
    rw [mget_mset_self, mget_mset_ne _ _ retailer caller _ hne]

/-- C2 witness: quantity 50 yields 50 retailer units and 5 referral units
(Scenario A), and quantity 7 yields 7 retailer units and 0 referral
units. -/
theorem confirmDonation_reward_units_witness :
    confirmDonation sysA 2 1 3 2 1000 = .ok sysA'
    ∧ mget sysA'.gwt.balances 0 3 = 0 + 50 ∧ mget sysA'.gwt.balances 0 2 = 0 + 5
    ∧ confirmDonation sysB 2 1 3 2 1000 = .ok sysB'
    ∧ mget sysB'.gwt.balances 0 3 = 0 + 7 ∧ mget sysB'.gwt.balances 0 2 = 0 + 0 := by
  refine ⟨by decide, ?_, ?_, by decide, ?_, ?_⟩
  · exact (confirmDonation_reward_units sysA sysA' 2 1 3 2 1000 (by decide) (by decide)).1
  · exact (confirmDonation_reward_units sysA sysA' 2 1 3 2 1000 (by decide) (by decide)).2
  · exact (confirmDonation_reward_units sysB sysB' 2 1 3 2 1000 (by decide) (by decide)).1
  · exact (confirmDonation_reward_units sysB sysB' 2 1 3 2 1000 (by decide) (by decide)).2

/-- C3 counterexample: in Scenario A (weightKg = 25) the confirmation
succeeds but records `carbonCredits = 62`, an integer, and
`10 * 62 = 620 ≠ 625 = 25 * weightKg`: the recorded value is not
`weightKg * 2.5 = 62.5` but its floor — the claimed equality fails on the
claim's own example. -/
theorem confirmDonation_carbon_not_exact_cex :
    (confirmDonation sysA 2 1 3 2 1000).isOk = true
    ∧ (mget sysA'.dv.donations donation0 1).carbonCredits = 62
    ∧ ¬ (10 * (mget sysA'.dv.donations donation0 1).carbonCredits
          = 25 * batchA.weightKg) := by
  decide

/-- C3 (amended) — Carbon-credit arithmetic. A successful `confirmDonation`
records `carbonCreditsKg = floor(weightKg * 25 / 10)` (integer division by
10 of `weightKg * CO2_FACTOR`), i.e. the floor of `weightKg * 2.5`; for
weightKg = 25 this is 62, not 62.5, and it equals `weightKg * 2.5` exactly
only for even weights. -/
theorem confirmDonation_carbon_floor (s s' : Sys) (caller batchId retailer sig now : Nat)
    (h : confirmDonation s caller batchId retailer sig now = .ok s') :
    (mget s'.dv.donations donation0 (s.dv.donationCount + 1)).carbonCredits
      = (mget s.reg.batches batch0 batchId).weightKg * 25 / 10 := by
  obtain ⟨g₁, g₂, hreg, hpend, hsig, hstatus, hm₁, hm₂, hs'⟩ :=
    confirmDonation_ok_elim s s' caller batchId retailer sig now h
  subst hs'
  show (mget (mset _ _ _) donation0 _).carbonCredits = _
  rw [mget_mset_self]

/-- C3 witness: the quantity-7, weight-4 scenario records
`carbonCredits = 4 * 25 / 10 = 10`, and Scenario A records
`25 * 25 / 10 = 62`. -/
theorem confirmDonation_carbon_floor_witness :
    confirmDonation sysB 2 1 3 2 1000 = .ok sysB'
    ∧ (mget sysB'.dv.donations donation0 1).carbonCredits = 4 * 25 / 10
    ∧ confirmDonation sysA 2 1 3 2 1000 = .ok sysA'
    ∧ (mget sysA'.dv.donations donation0 1).carbonCredits = 25 * 25 / 10 := by
  refine ⟨by decide, ?_, by decide, ?_⟩
  · exact confirmDonation_carbon_floor sysB sysB' 2 1 3 2 1000 (by decide)
  · exact confirmDonation_carbon_floor sysA sysA' 2 1 3 2 1000 (by decide)

/-- C8 — Frame of `confirmDonation` on the batch registry. A successful
confirmation only reads the registry (via `getBatch`): the entire
`SupplyChainBatch` state — every field of every batch record, the balances
and the oracle set — is unchanged, and the donated batch's status was
`READY_FOR_DONATION` before and still is afterwards; no terminal
"donated" status is ever set. -/
theorem confirmDonation_registry_frame (s s' : Sys) (caller batchId retailer sig now : Nat)
    (h : confirmDonation s caller batchId retailer sig now = .ok s') :
    s'.reg = s.reg
    ∧ (mget s.reg.batches batch0 batchId).status = READY_FOR_DONATION
    ∧ (mget s'.reg.batches batch0 batchId).status = READY_FOR_DONATION := by
  obtain ⟨g₁, g₂, hreg, hpend, hsig, hstatus, hm₁, hm₂, hs'⟩ :=
    confirmDonation_ok_elim s s' caller batchId retailer sig now h
  subst hs'
  exact ⟨rfl, hstatus, hstatus⟩

/-- C8 witness: the Scenario-A confirmation leaves the registry record of
batch 1 — and the whole registry — untouched, still
`READY_FOR_DONATION`. -/
theorem confirmDonation_registry_frame_witness :
    confirmDonation sysA 2 1 3 2 1000 = .ok sysA'
    ∧ sysA'.reg = sysA.reg
    ∧ (mget sysA'.reg.batches batch0 1).status = READY_FOR_DONATION := by
  refine ⟨by decide, ?_, ?_⟩
  · exact (confirmDonation_registry_frame sysA sysA' 2 1 3 2 1000 (by decide)).1
  · exact (confirmDonation_registry_frame sysA sysA' 2 1 3 2 1000 (by decide)).2.2

/-- C10 — Hard-coded quarter year. The quarter key under which every
successful `confirmDonation` accumulates its CO2 and item aggregates is
`2026 * 10 + q` with `q = ((timestamp / 30 days) % 12) / 3 + 1 ∈ {1,2,3,4}`:
the year component is the constant 2026 whatever the timestamp, only four
keys 20261..20264 ever occur, and timestamps 360 days apart (hence
different calendar years) map to the same key. -/
theorem confirmDonation_quarter_key (s s' : Sys) (caller batchId retailer sig now : Nat)
    (h : confirmDonation s caller batchId retailer sig now = .ok s') :
    getCurrentQuarter now = 20260 + ((now / 2592000) % 12) / 3 + 1
    ∧ 20261 ≤ getCurrentQuarter now ∧ getCurrentQuarter now ≤ 20264
    ∧ getCurrentQuarter (now + 31104000) = getCurrentQuarter now
    ∧ mget s'.dv.quarterCO2Saved 0 (getCurrentQuarter now)
        = mget s.dv.quarterCO2Saved 0 (getCurrentQuarter now)
          + (mget s.reg.batches batch0 batchId).weightKg * 25 / 10
    ∧ mget s'.dv.quarterItemsDonated 0 (getCurrentQuarter now)
        = mget s.dv.quarterItemsDonated 0 (getCurrentQuarter now)
          + (mget s.reg.batches batch0 batchId).quantity := by
  obtain ⟨g₁, g₂, hreg, hpend, hsig, hstatus, hm₁, hm₂, hs'⟩ :=
    confirmDonation_ok_elim s s' caller batchId retailer sig now h
  subst hs'
  refine ⟨?_, ?_, ?_, ?_, mget_mset_self _ _ _ _, mget_mset_self _ _ _ _⟩
  · simp only [getCurrentQuarter]; omega
  · simp only [getCurrentQuarter]; omega
  · simp only [getCurrentQuarter]; omega
  · simp only [getCurrentQuarter]; omega

/-- C10 witness: the Scenario-A confirmation at timestamp 1000 accumulates
under quarter key 20261, and timestamp 1000 + 360 days yields the same
key. -/
theorem confirmDonation_quarter_key_witness :
    confirmDonation sysA 2 1 3 2 1000 = .ok sysA'
    ∧ getCurrentQuarter 1000 = 20261
    ∧ getCurrentQuarter (1000 + 31104000) = getCurrentQuarter 1000
    ∧ mget sysA'.dv.quarterCO2Saved 0 (getCurrentQuarter 1000) = 0 + 62 := by
  refine ⟨by decide, by decide, ?_, ?_⟩
  · exact (confirmDonation_quarter_key sysA sysA' 2 1 3 2 1000 (by decide)).2.2.2.1
  · exact (confirmDonation_quarter_key sysA sysA' 2 1 3 2 1000 (by decide)).2.2.2.2.1

theorem isOk_error {a : Type} (e : Err) : (Except.error e : Except Err a).isOk = false := rfl

theorem isOk_ok {a : Type} (v : a) : (Except.ok v : Except Err a).isOk = true := rfl

/-- Registry for the C5 boundary experiments: batch 1 in retail with
expiry 864000 (10 days), oracle 4 authorized. -/
def regC5 : BatchReg :=
  { batches := [(1, { expiry := 864000, quantity := 5, manufacturer := 1
                      currentOwner := 3, status := 1, gs1Hash := 0, weightKg := 2 })]
    nextBatchId := 2, authorizedOracles := [(4, true)], regOwner := 1
    bal1155 := [((3, 1), 1)], operatorApprovals := [] }

/-- C5 counterexample: an authorized oracle (address 4) calls
`flagNearExpiry` on an `IN_RETAIL` batch exactly at its expiry time
(now = expiry = 864000): the claim says the call must fail for
now ≥ expiry, but it succeeds and sets `NEAR_EXPIRY` — the source checks
only `block.timestamp >= expiry - 3 days` and imposes no upper bound. -/
theorem flagNearExpiry_succeeds_at_expiry_cex :
    (mget regC5.batches batch0 1).expiry = 864000
    ∧ (mget regC5.batches batch0 1).status = IN_RETAIL
    ∧ mget regC5.authorizedOracles false 4 = true
    ∧ (flagNearExpiry regC5 4 1 864000).isOk = true
    ∧ statusOf ((flagNearExpiry regC5 4 1 864000).toOption.getD regC5) 1 = NEAR_EXPIRY := by
  decide

/-- C5 (amended) — flagNearExpiry window. The call succeeds exactly when
the caller is an authorized oracle or the admin, the batch status is
`IN_RETAIL`, the checked subtraction `expiry - 3 days` does not underflow
(3 days ≤ expiry) and `expiry - 3 days ≤ now`; there is no upper time
bound, so it also succeeds at every `now ≥ expiry`. It fails at
`now < expiry - 3 days` and at status ≠ `IN_RETAIL` as the claim says,
and on success it sets the status to `NEAR_EXPIRY`. -/
theorem flagNearExpiry_window (r : BatchReg) (caller batchId now : Nat) :
    ((flagNearExpiry r caller batchId now).isOk = true ↔
      ((mget r.authorizedOracles false caller = true ∨ caller = r.regOwner)
        ∧ (mget r.batches batch0 batchId).status = IN_RETAIL
        ∧ 259200 ≤ (mget r.batches batch0 batchId).expiry
        ∧ (mget r.batches batch0 batchId).expiry - 259200 ≤ now))
    ∧ (∀ r', flagNearExpiry r caller batchId now = .ok r' →
        statusOf r' batchId = NEAR_EXPIRY) := by
  constructor
  · simp only [flagNearExpiry, IN_RETAIL]
    split
    next hauth => simp [isOk_error, hauth]
    next hauth =>
      have hA := of_not_not hauth
      split
      next hst => simp [isOk_error, hA, hst]
      next hst =>
        have hS := of_not_not hst
        split
        next hex => simp [isOk_error, hA, hS]; omega
        next hex =>
          split
          next hnow => simp [isOk_error, hA, hS]; omega
          next hnow => simp [isOk_ok, hA, hS]; omega
  · intro r' h
    simp only [flagNearExpiry] at h
    split at h
    next => exact Except.noConfusion h
    next =>
      split at h
      next => exact Except.noConfusion h
      next =>
        split at h
        next => exact Except.noConfusion h
        next =>
          split at h
          next => exact Except.noConfusion h
          next =>
            injection h with h
            subst h
            show (mget (mset _ _ _) batch0 _).status = NEAR_EXPIRY
            rw [mget_mset_self]

/-- C5 witness: in the same state the call succeeds at the lower boundary
now = expiry - 3 days = 604800 with status set to `NEAR_EXPIRY`, and fails
one second earlier. -/
theorem flagNearExpiry_window_witness :
    (flagNearExpiry regC5 4 1 604800).isOk = true
    ∧ statusOf ((flagNearExpiry regC5 4 1 604800).toOption.getD regC5) 1 = NEAR_EXPIRY
    ∧ (flagNearExpiry regC5 4 1 604799).isOk = false := by
  refine ⟨(flagNearExpiry_window regC5 4 1 604800).1.mpr (by decide), ?_, by decide⟩
  exact (flagNearExpiry_window regC5 4 1 604800).2
    ((flagNearExpiry regC5 4 1 604800).toOption.getD regC5) (by decide)

set_option maxRecDepth 10000 in
/-- C6 — the three-cycle sweep misses ids 51 and 102. With 120 registered
batches (ids 1..120, all `IN_RETAIL` and inside the near-expiry window)
and page size 50, three successive checkUpkeep/performUpkeep cycles
starting from cursor 0 inspect only 118 distinct ids — id 51 and id 102
are never inspected, because `performUpkeep` persists the exclusive page
end `startId + checkBatchSize` as `lastCheckedBatchId` although the scan
loop stops one id earlier, and the next scan starts at
`lastCheckedBatchId + 1`. The cursor does wrap to 0 after the third
cycle. -/
theorem keeper_sweep_skips_ids :
    sysC.reg.nextBatchId = 121
    ∧ sysC.keeper.checkBatchSize = 50
    ∧ visitedC.length = 118
    ∧ visitedC.Nodup
    ∧ visitedC.all (fun i => 1 ≤ i ∧ i ≤ 120)
    ∧ 51 ∉ visitedC
    ∧ 102 ∉ visitedC
    ∧ cycC3.1.keeper.lastCheckedBatchId = 0 := by
  decide

/-- Registry with nine in-retail batches for the C7 experiment. -/
def regK : BatchReg :=
  { batches := (List.range 9).map (fun i => (i + 1, batchC))
    nextBatchId := 10, authorizedOracles := [(8, true)], regOwner := 1
    bal1155 := (List.range 9).map (fun i => ((2, i + 1), 1))
    operatorApprovals := [] }

/-- System around `regK` for the C7 experiment. -/
def sysK : Sys :=
  { reg := regK, gwt := gwt0, dv := dv0, keeper := keeper0
    verifierAddr := 9, keeperAddr := 8 }

/-- C7 counterexample: address 7 is neither an authorized oracle nor any
contract's admin, yet its `performUpkeep` call is accepted (no
authorization error) and moves the persisted cursor from 0 to 3 — the
claim that such a call is rejected before any state change is false. -/
theorem performUpkeep_unauthorized_ok_cex :
    mget sysK.reg.authorizedOracles false 7 = false
    ∧ 7 ≠ sysK.reg.regOwner
    ∧ 7 ≠ sysK.keeper.keeperOwner
    ∧ sysK.keeper.lastCheckedBatchId = 0
    ∧ performUpkeep sysK 7 ([], 3) 0
        = .ok { sysK with keeper := { sysK.keeper with lastCheckedBatchId := 3 } } := by
  decide

theorem flagNearExpiry_nextBatchId (r r' : BatchReg) (caller batchId now : Nat)
    (h : flagNearExpiry r caller batchId now = .ok r') :
    r'.nextBatchId = r.nextBatchId := by
  simp only [flagNearExpiry] at h
  split at h
  next => exact Except.noConfusion h
  next =>
    split at h
    next => exact Except.noConfusion h
    next =>
      split at h
      next => exact Except.noConfusion h
      next =>
        split at h
        next => exact Except.noConfusion h
        next =>
          injection h with h
          subst h
          rfl

theorem performLoop_nextBatchId (ids : List Nat) (r r' : BatchReg) (keeperAddr now : Nat)
    (h : performLoop r keeperAddr now ids = .ok r') :
    r'.nextBatchId = r.nextBatchId := by
  induction ids generalizing r with
  | nil =>
    simp only [performLoop] at h
    injection h with h
    subst h
    rfl
  | cons batchId rest ih =>
    simp only [performLoop] at h
    split at h
    next => exact ih r h
    next r₁ hflag =>
      have hn := flagNearExpiry_nextBatchId r r₁ keeperAddr batchId now hflag
      split at h
      next =>
        split at h
        next => exact Except.noConfusion h
        next => rw [ih r₁ h, hn]
      next => rw [ih r₁ h, hn]

/-- C7 (amended) — performUpkeep is permissionless. The source never reads
`msg.sender`: the result is identical for every caller, so no caller is
ever rejected with an authorization error; every accepted call performs
the per-item-tolerant flagging and unconditionally persists the supplied
cursor value, resetting it to 0 once it reaches the `nextBatchId - 1`
high-water mark. Only the inner `flagNearExpiry` calls are gated (the
batch contract requires the keeper contract itself to be an authorized
oracle or its owner), and their failures are swallowed per item. -/
theorem performUpkeep_permissionless (s : Sys) (c₁ c₂ : Nat) (data : List Nat × Nat) (now : Nat) :
    performUpkeep s c₁ data now = performUpkeep s c₂ data now
    ∧ ∀ s', performUpkeep s c₁ data now = .ok s' →
        s'.keeper.lastCheckedBatchId
          = if s.reg.nextBatchId - 1 ≤ data.2 then 0 else data.2 := by
  refine ⟨rfl, ?_⟩
  intro s' h
  simp only [performUpkeep] at h
  split at h
  next => exact Except.noConfusion h
  next r₁ hloop =>
    split at h
    next => exact Except.noConfusion h
    next hnz =>
      injection h with h
      subst h
      have hn := performLoop_nextBatchId data.1 s.reg r₁ s.keeperAddr now hloop
      show (if r₁.nextBatchId - 1 ≤ data.2 then 0 else data.2) = _
      rw [hn]

/-- C7 witness: for the concrete `sysK` state, caller 7 (unauthorized) and
caller 8 (the oracle) produce identical results, and the accepted call
sets the cursor to the supplied value 3. -/
theorem performUpkeep_permissionless_witness :
    performUpkeep sysK 7 ([], 3) 0 = performUpkeep sysK 8 ([], 3) 0
    ∧ ((performUpkeep sysK 7 ([], 3) 0).toOption.getD sysK).keeper.lastCheckedBatchId
        = if sysK.reg.nextBatchId - 1 ≤ 3 then 0 else 3 := by
  refine ⟨(performUpkeep_permissionless sysK 7 8 ([], 3) 0).1, ?_⟩
  exact (performUpkeep_permissionless sysK 7 8 ([], 3) 0).2
    ((performUpkeep sysK 7 ([], 3) 0).toOption.getD sysK) (by decide)

/-- Default tax receipt used as a list-head fallback. -/
def taxReceipt0 : TaxReceipt :=
  { burner := 0, amount := 0, timestamp := 0
    receiptHash := { burner := 0, amount := 0, timestamp := 0
                     blockNumber := 0, priorCount := 0 } }

/-- Token state for the C9 experiment: account 5 holds 10 tokens and has
no receipts yet. -/
def gwtB : GWT :=
  { balances := [(5, 10)], totalSupply := 10, taxReceipts := []
    authorizedMinters := [], gwtOwner := 1 }

/-- Receipt log of `caller` after a burn, or `[]` when the burn reverts. -/
def burnOut (g : GWT) (caller amount now blockNumber : Nat) : List TaxReceipt :=
  match burnForTax g caller amount now blockNumber with
  | .ok g' => mget g'.taxReceipts [] caller
  | .error _ => []

/-- C9 counterexample: two `burnForTax` executions that agree on all four
claimed hash inputs — burner 5, amount 3, timestamp 100, prior receipt
count 0 — but run in blocks 1 and 2 both succeed yet produce different
receipt hashes: the digest also covers `block.number`, so it is not a
function of exactly those four values. -/
theorem burnForTax_hash_blocknumber_cex :
    (burnForTax gwtB 5 3 100 1).isOk = true
    ∧ (burnForTax gwtB 5 3 100 2).isOk = true
    ∧ (burnOut gwtB 5 3 100 1).length = 1
    ∧ (burnOut gwtB 5 3 100 2).length = 1
    ∧ ((burnOut gwtB 5 3 100 1).headD taxReceipt0).receiptHash
        ≠ ((burnOut gwtB 5 3 100 2).headD taxReceipt0).receiptHash := by
  decide

/-- C9 (amended) — receipt hash and failure atomicity. The receipt hash
appended by a successful `burnForTax` is a deterministic function of
exactly five values — burner address, amount, timestamp, block number and
prior receipt count — so two executions agreeing on all five (not merely
the claimed four) produce equal hashes; the success also debits exactly
`amount`. When the balance is below `amount` the call reverts with the
PreconditionError "Insufficient balance", leaving balance and receipt log
unchanged (a revert produces no new state). -/
theorem burnForTax_hash_and_failure (g : GWT) (caller amount now blockNumber : Nat) :
    (∀ g', burnForTax g caller amount now blockNumber = .ok g' →
      mget g'.taxReceipts [] caller
        = mget g.taxReceipts [] caller
          ++ [{ burner := caller, amount := amount, timestamp := now
                receiptHash := { burner := caller, amount := amount, timestamp := now
                                 blockNumber := blockNumber
                                 priorCount := (mget g.taxReceipts [] caller).length } }]
      ∧ mget g'.balances 0 caller = mget g.balances 0 caller - amount)
    ∧ (mget g.balances 0 caller < amount →
        burnForTax g caller amount now blockNumber = .error .insufficientBalance) := by
  constructor
  · intro g' h
    simp only [burnForTax] at h
    split at h
    next => exact Except.noConfusion h
    next =>
      split at h
      next => exact Except.noConfusion h
      next =>
        injection h with h
        subst h
        exact ⟨mget_mset_self _ _ _ _, mget_mset_self _ _ _ _⟩
  · intro hlt
    simp only [burnForTax]
    rw [if_pos hlt]

/-- C9 witness: the concrete burn of 3 from account 5 appends exactly the
predicted receipt and debits the balance to 7, and the over-burn of 20
reverts with "Insufficient balance". -/
theorem burnForTax_hash_and_failure_witness :
    (burnForTax gwtB 5 3 100 1).isOk = true
    ∧ mget ((burnForTax gwtB 5 3 100 1).toOption.getD gwtB).taxReceipts [] 5
        = [{ burner := 5, amount := 3, timestamp := 100
             receiptHash := { burner := 5, amount := 3, timestamp := 100
                              blockNumber := 1, priorCount := 0 } }]
    ∧ mget ((burnForTax gwtB 5 3 100 1).toOption.getD gwtB).balances 0 5 = 7
    ∧ burnForTax gwtB 5 20 100 1 = .error .insufficientBalance := by
  refine ⟨by decide, ?_, ?_, ?_⟩
  · exact ((burnForTax_hash_and_failure gwtB 5 3 100 1).1
      ((burnForTax gwtB 5 3 100 1).toOption.getD gwtB) (by decide)).1
  · exact ((burnForTax_hash_and_failure gwtB 5 3 100 1).1
      ((burnForTax gwtB 5 3 100 1).toOption.getD gwtB) (by decide)).2
  · exact (burnForTax_hash_and_failure gwtB 5 20 100 1).2 (by decide)

/-! Status monotonicity (C4). -/

/-- Propositional form of `wfReg`. -/
def wfP (r : BatchReg) : Prop :=
  (∀ kv ∈ r.batches, kv.1 < r.nextBatchId)
  ∧ ∀ kv ∈ r.bal1155, kv.2 = 0 ∨ kv.1.2 < r.nextBatchId

theorem mget_mem {κ α : Type} [DecidableEq κ] (m : List (κ × α)) (d : α) (k : κ)
    (h : mget m d k ≠ d) : (k, mget m d k) ∈ m := by
  induction m with
  | nil => exact absurd rfl h
  | cons kv rest ih =>
    obtain ⟨k₁, v⟩ := kv
    by_cases hk : k₁ = k
    · subst hk
      simp [mget]
    · simp only [mget, if_neg hk] at h ⊢
      exact List.mem_cons_of_mem _ (ih h)

theorem wfReg_iff (r : BatchReg) : wfReg r = true ↔ wfP r := by
  simp [wfReg, wfP, List.all_eq_true, decide_eq_true_eq, Bool.or_eq_true]

theorem bal_lt (r : BatchReg) (hwf : wfP r) (acct id : Nat)
    (h : mget r.bal1155 0 (acct, id) ≠ 0) : id < r.nextBatchId := by
  have hm := mget_mem r.bal1155 0 (acct, id) h
  exact (hwf.2 _ hm).resolve_left h

theorem batch_lt (r : BatchReg) (hwf : wfP r) (id : Nat)
    (h : (mget r.batches batch0 id).status ≠ 0) : id < r.nextBatchId := by
  have hne : mget r.batches batch0 id ≠ batch0 := by
    intro hc
    rw [hc] at h
    exact h rfl
  exact hwf.1 _ (mget_mem r.batches batch0 id hne)

theorem statusOf_fresh (r : BatchReg) (hwf : wfP r) (id : Nat)
    (h : r.nextBatchId ≤ id) : statusOf r id = 0 := by
  unfold statusOf
  rw [mget_eq_default_of_no_key r.batches batch0 id
    (fun kv hm => Nat.ne_of_lt (Nat.lt_of_lt_of_le (hwf.1 kv hm) h))]
  rfl

theorem registerBatch_mono (r r' : BatchReg) (caller now expiry quantity gs1Hash weightKg : Nat)
    (hwf : wfP r)
    (h : registerBatch r caller now expiry quantity gs1Hash weightKg = .ok r') :
    wfP r' ∧ ∀ id, statusOf r id ≤ statusOf r' id := by
  simp only [registerBatch] at h
  split at h
  next => exact Except.noConfusion h
  next =>
    split at h
    next => exact Except.noConfusion h
    next =>
      split at h
      next => exact Except.noConfusion h
      next =>
        injection h with h
        subst h
        constructor
        · constructor
          · intro kv hm
            rcases List.mem_cons.mp hm with hkv | hkv
            · subst hkv
              exact Nat.lt_succ_self _
            · exact Nat.lt_succ_of_lt (hwf.1 kv hkv)
          · intro kv hm
            rcases List.mem_cons.mp hm with hkv | hkv
            · subst hkv
              exact Or.inr (Nat.lt_succ_self _)
            · rcases hwf.2 kv hkv with h0 | hlt
              · exact Or.inl h0
              · exact Or.inr (Nat.lt_succ_of_lt hlt)
        · intro id
          by_cases hid : id = r.nextBatchId
          · subst hid
            rw [statusOf_fresh r hwf r.nextBatchId (Nat.le_refl _)]
            exact Nat.zero_le _
          · unfold statusOf
            rw [show ({ r with
                batches := mset r.batches r.nextBatchId
                  { expiry := expiry, quantity := quantity, manufacturer := caller
                    currentOwner := caller, status := MANUFACTURED
                    gs1Hash := gs1Hash, weightKg := weightKg }
                nextBatchId := r.nextBatchId + 1
                bal1155 := mset r.bal1155 (caller, r.nextBatchId)
                  (mget r.bal1155 0 (caller, r.nextBatchId) + 1) } : BatchReg).batches
              = mset r.batches r.nextBatchId
                  { expiry := expiry, quantity := quantity, manufacturer := caller
                    currentOwner := caller, status := MANUFACTURED
                    gs1Hash := gs1Hash, weightKg := weightKg } from rfl]
            rw [mget_mset_ne _ _ _ _ _ (fun hc => hid hc.symm)]

theorem claimBatch_mono (r r' : BatchReg) (caller batchId : Nat) (hwf : wfP r)
    (h : claimBatch r caller batchId = .ok r') :
    wfP r' ∧ ∀ id, statusOf r id ≤ statusOf r' id := by
  simp only [claimBatch] at h
  split at h
  next => exact Except.noConfusion h
  next hst =>
    split at h
    next => exact Except.noConfusion h
    next hbal =>
      split at h
      next => exact Except.noConfusion h
      next =>
        injection h with h
        subst h
        have hst' : (mget r.batches batch0 batchId).status = MANUFACTURED := of_not_not hst
        have hlt : batchId < r.nextBatchId :=
          bal_lt r hwf (mget r.batches batch0 batchId).currentOwner batchId hbal
        constructor
        · constructor
          · intro kv hm
            rcases List.mem_cons.mp hm with hkv | hkv
            · subst hkv
              exact hlt
            · exact hwf.1 kv hkv
          · intro kv hm
            rcases List.mem_cons.mp hm with hkv | hm₂
            · subst hkv
              exact Or.inr hlt
            · rcases List.mem_cons.mp hm₂ with hkv | hm₃
              · subst hkv
                exact Or.inr hlt
              · exact hwf.2 kv hm₃
        · intro id
          by_cases hid : id = batchId
          · subst hid
            unfold statusOf
            rw [mget_mset_self, hst']
            exact Nat.zero_le _
          · unfold statusOf
            rw [mget_mset_ne _ _ _ _ _ (fun hc => hid hc.symm)]

theorem markForDonation_mono (r r' : BatchReg) (caller batchId : Nat) (hwf : wfP r)
    (h : markForDonation r caller batchId = .ok r') :
    wfP r' ∧ ∀ id, statusOf r id ≤ statusOf r' id := by
  simp only [markForDonation] at h
  split at h
  next => exact Except.noConfusion h
  next =>
    split at h
    next => exact Except.noConfusion h
    next hst =>
      injection h with h
      subst h
      have h12 : (mget r.batches batch0 batchId).status = IN_RETAIL
          ∨ (mget r.batches batch0 batchId).status = NEAR_EXPIRY := by
        rcases Decidable.not_and_iff_or_not.mp hst with h1 | h1
        · exact Or.inl (of_not_not h1)
        · exact Or.inr (of_not_not h1)
      have hlt : batchId < r.nextBatchId := by
        refine batch_lt r hwf batchId ?_
        rcases h12 with h1 | h1 <;> rw [h1] <;> decide
      constructor
      · constructor
        · intro kv hm
          rcases List.mem_cons.mp hm with hkv | hkv
          · subst hkv
            exact hlt
          · exact hwf.1 kv hkv
        · exact hwf.2
      · intro id
        by_cases hid : id = batchId
        · subst hid
          unfold statusOf
          rw [mget_mset_self]
          show _ ≤ READY_FOR_DONATION
          rcases h12 with h1 | h1 <;> rw [h1] <;> decide
        · unfold statusOf
          rw [mget_mset_ne _ _ _ _ _ (fun hc => hid hc.symm)]

theorem flagNearExpiry_mono (r r' : BatchReg) (caller batchId now : Nat) (hwf : wfP r)
    (h : flagNearExpiry r caller batchId now = .ok r') :
    wfP r' ∧ ∀ id, statusOf r id ≤ statusOf r' id := by
  simp only [flagNearExpiry] at h
  split at h
  next => exact Except.noConfusion h
  next =>
    split at h
    next => exact Except.noConfusion h
    next hst =>
      split at h
      next => exact Except.noConfusion h
      next =>
        split at h
        next => exact Except.noConfusion h
        next =>
          injection h with h
          subst h
          have hst' : (mget r.batches batch0 batchId).status = IN_RETAIL := of_not_not hst
          have hlt : batchId < r.nextBatchId := by
            refine batch_lt r hwf batchId ?_
            rw [hst']
            decide
          constructor
          · constructor
            · intro kv hm
              rcases List.mem_cons.mp hm with hkv | hkv
              · subst hkv
                exact hlt
              · exact hwf.1 kv hkv
            · exact hwf.2
          · intro id
            by_cases hid : id = batchId
            · subst hid
              unfold statusOf
              rw [mget_mset_self, hst']
              show IN_RETAIL ≤ NEAR_EXPIRY
              decide
            · unfold statusOf
              rw [mget_mset_ne _ _ _ _ _ (fun hc => hid hc.symm)]

theorem safeTransferFrom1155_mono (r r' : BatchReg) (caller fromAcc toAcc id amount : Nat)
    (hwf : wfP r) (h : safeTransferFrom1155 r caller fromAcc toAcc id amount = .ok r') :
    wfP r' ∧ ∀ i, statusOf r i ≤ statusOf r' i := by
  simp only [safeTransferFrom1155] at h
  split at h
  next => exact Except.noConfusion h
  next =>
    split at h
    next => exact Except.noConfusion h
    next =>
      split at h
      next => exact Except.noConfusion h
      next =>
        split at h
        next => exact Except.noConfusion h
        next hba =>
          injection h with h
          subst h
          have hba' : amount ≤ mget r.bal1155 0 (fromAcc, id) := Nat.le_of_not_lt hba
          refine ⟨⟨hwf.1, ?_⟩, fun i => Nat.le_refl _⟩
          intro kv hm
          rcases List.mem_cons.mp hm with hkv | hm₂
          · subst hkv
            by_cases hz :
                mget (mset r.bal1155 (fromAcc, id) (mget r.bal1155 0 (fromAcc, id) - amount))
                  0 (toAcc, id) + amount = 0
            · exact Or.inl hz
            · refine Or.inr ?_
              by_cases ham : amount = 0
              · subst ham
                by_cases hfe : ((fromAcc, id) : Nat × Nat) = (toAcc, id)
                · rw [← hfe, mget_mset_self] at hz
                  exact bal_lt r hwf fromAcc id (by omega)
                · rw [mget_mset_ne _ _ _ _ _ hfe] at hz
                  exact bal_lt r hwf toAcc id (by omega)
              · exact bal_lt r hwf fromAcc id (by omega)
          · rcases List.mem_cons.mp hm₂ with hkv | hm₃
            · subst hkv
              by_cases hz : mget r.bal1155 0 (fromAcc, id) - amount = 0
              · exact Or.inl hz
              · exact Or.inr (bal_lt r hwf fromAcc id (by omega))
            · exact hwf.2 kv hm₃

theorem regStep_mono (r r' : BatchReg) (op : RegOp) (hwf : wfP r)
    (h : regStep r op = .ok r') :
    wfP r' ∧ ∀ id, statusOf r id ≤ statusOf r' id := by
  cases op with
  | register caller now expiry quantity gs1Hash weightKg =>
    exact registerBatch_mono r r' caller now expiry quantity gs1Hash weightKg hwf h
  | claim caller batchId => exact claimBatch_mono r r' caller batchId hwf h
  | mark caller batchId => exact markForDonation_mono r r' caller batchId hwf h
  | flag caller batchId now => exact flagNearExpiry_mono r r' caller batchId now hwf h
  | oracle caller addr authorized =>
    simp only [regStep, setOracle] at h
    split at h
    next => exact Except.noConfusion h
    next =>
      injection h with h
      subst h
      exact ⟨⟨hwf.1, hwf.2⟩, fun i => Nat.le_refl _⟩
  | transfer caller fromAcc toAcc id amount =>
    exact safeTransferFrom1155_mono r r' caller fromAcc toAcc id amount hwf h
  | approve caller operator approved =>
    simp only [regStep, setApprovalForAll1155] at h
    split at h
    next => exact Except.noConfusion h
    next =>
      injection h with h
      subst h
      exact ⟨⟨hwf.1, hwf.2⟩, fun i => Nat.le_refl _⟩

/-- C4 — Monotonic status. Starting from any well-formed registry state
(every stored batch id and every id carrying a nonzero token balance lies
below the `nextBatchId` high-water mark, as in every reachable state) and
running any sequence of the contract's state-changing operations —
register, claim, markForDonation, flagNearExpiry, setOracle, the inherited
ERC-1155 transfer and approval — the observed status of every batch never
decreases under MANUFACTURED(0) < IN_RETAIL(1) < NEAR_EXPIRY(2) <
READY_FOR_DONATION(3); a reverted call changes nothing. -/
theorem batch_status_monotone (r : BatchReg) (ops : List RegOp) (id : Nat)
    (hwf : wfReg r = true) :
    statusOf r id ≤ statusOf (runReg r ops) id := by
  have main : ∀ (ops : List RegOp) (r : BatchReg), wfP r →
      ∀ i, statusOf r i ≤ statusOf (runReg r ops) i := by
    intro ops
    induction ops with
    | nil => exact fun r _ i => Nat.le_refl _
    | cons op rest ih =>
      intro r hwfp i
      show statusOf r i
        ≤ statusOf (runReg (match regStep r op with | .ok r₁ => r₁ | .error _ => r) rest) i
      cases hc : regStep r op with
      | ok r₁ =>
        obtain ⟨hwf₁, hmono⟩ := regStep_mono r r₁ op hwfp hc
        exact Nat.le_trans (hmono i) (ih r₁ hwf₁ i)
      | error e => exact ih r hwfp i
  exact main ops r ((wfReg_iff r).mp hwf) id

/-- Registry with no batches yet (a freshly deployed contract with oracle
4 authorized). -/
def regW : BatchReg :=
  { batches := [], nextBatchId := 1, authorizedOracles := [(4, true)]
    regOwner := 1, bal1155 := [], operatorApprovals := [] }

/-- A register/claim/flag/mark call sequence driving batch 1 through
MANUFACTURED, IN_RETAIL, NEAR_EXPIRY, READY_FOR_DONATION. -/
def opsW : List RegOp :=
  [.register 5 0 864000 10 0 20, .claim 6 1, .flag 4 1 700000, .mark 6 1]

/-- C4 witness: the fresh registry is well-formed and batch 1's status
after the full register/claim/flag/mark sequence (ending at
READY_FOR_DONATION) is at least its initial value. -/
theorem batch_status_monotone_witness :
    wfReg regW = true
    ∧ statusOf regW 1 ≤ statusOf (runReg regW opsW) 1
    ∧ statusOf (runReg regW opsW) 1 = READY_FOR_DONATION := by
  refine ⟨by decide, batch_status_monotone regW opsW 1 (by decide), by decide⟩
